import Mathlib

/-!
Shallow embedding of the traffic-light kernel module (`src/mytraffic.c`).

The controller state (`traffic_light_t`) is embedded as a Lean structure; the
hardware pieces (GPIO writes via `set_light_status`, interrupt registration,
`jiffies`) are external collaborators.  The argument of each `mod_timer` call
is recorded symbolically in a `timer_arm` field: the source always arms either
`jiffies + n * HZ / cycle_rate` (a phase of `n` cycles, `timer_arm.cycles n`)
or `jiffies + msecs_to_jiffies m` (`timer_arm.poll_ms m`, the 10 ms
lightbulb-check release poll); `mod_timer` replaces any pending deadline, so
the field holds the most recent arming.  The live GPIO levels of the two
buttons, read by `handle_lightbulb_check` and the IRQ handlers via
`gpio_get_value`, are passed as explicit `Bool` arguments.  Button debounce
timestamps are in jiffies (`Nat`); the refractory window
`msecs_to_jiffies(50)` is an explicit parameter of the IRQ-handler embedding.
-/

namespace Mytraffic

/-- The five operational modes (`opmode_t` in `mytraffic.c`). -/
inductive opmode where
  | NORMAL_MODE
  | FLASHING_RED
  | FLASHING_YELLOW
  | PEDESTRIAN_MODE
  | LIGHTBULB_CHECK
  deriving DecidableEq, Repr, Fintype

/-- The four classified events (`event_t` in `mytraffic.c`). -/
inductive event where
  | EVENT_BTN_0_PRESS
  | EVENT_BTN_1_PRESS
  | EVENT_BOTH_BTNS_PRESS
  | EVENT_TIMER_EXPIRE
  deriving DecidableEq, Repr, Fintype

open opmode event

/-- `light_status_t`: the on/off state of the three lights. -/
structure light_status where
  red : Bool
  yellow : Bool
  green : Bool
  deriving DecidableEq, Repr

/-- The most recent `mod_timer` arming.  `cycles n` stands for
`mod_timer(&light->timer, jiffies + (n * HZ / light->cycle_rate))`;
`poll_ms m` stands for `mod_timer(&light->timer, jiffies + msecs_to_jiffies(m))`. -/
inductive timer_arm where
  | cycles (n : Nat)
  | poll_ms (m : Nat)
  deriving DecidableEq, Repr

/-- `traffic_light_t`: the controller state.  The embedded `struct timer_list`
is represented by the `timer` field (most recent arming). -/
structure traffic_light where
  mode : opmode
  status : light_status
  cycle_rate : Int
  pedestrian_present : Bool
  timer : timer_arm
  deriving DecidableEq, Repr

/-- `state_transition_table[4][5]`, indexed by event (row) and current mode
(column), transcribed entry by entry from `mytraffic.c`. -/
def state_transition_table (e : event) (m : opmode) : opmode :=
  match e, m with
  | EVENT_BTN_0_PRESS, NORMAL_MODE => FLASHING_RED
  | EVENT_BTN_0_PRESS, FLASHING_RED => FLASHING_YELLOW
  | EVENT_BTN_0_PRESS, FLASHING_YELLOW => NORMAL_MODE
  | EVENT_BTN_0_PRESS, PEDESTRIAN_MODE => PEDESTRIAN_MODE
  | EVENT_BTN_0_PRESS, LIGHTBULB_CHECK => NORMAL_MODE
  | EVENT_BTN_1_PRESS, NORMAL_MODE => PEDESTRIAN_MODE
  | EVENT_BTN_1_PRESS, FLASHING_RED => FLASHING_RED
  | EVENT_BTN_1_PRESS, FLASHING_YELLOW => FLASHING_YELLOW
  | EVENT_BTN_1_PRESS, PEDESTRIAN_MODE => PEDESTRIAN_MODE
  | EVENT_BTN_1_PRESS, LIGHTBULB_CHECK => NORMAL_MODE
  | EVENT_BOTH_BTNS_PRESS, _ => LIGHTBULB_CHECK
  | EVENT_TIMER_EXPIRE, NORMAL_MODE => NORMAL_MODE
  | EVENT_TIMER_EXPIRE, FLASHING_RED => FLASHING_RED
  | EVENT_TIMER_EXPIRE, FLASHING_YELLOW => FLASHING_YELLOW
  | EVENT_TIMER_EXPIRE, PEDESTRIAN_MODE => NORMAL_MODE
  | EVENT_TIMER_EXPIRE, LIGHTBULB_CHECK => LIGHTBULB_CHECK

/-- `handle_normal_mode`: green(3) to yellow(1) to red(2) to green(3), with the
pedestrian guard on the yellow-to-red branch; when all lights are off after a
mode switch, default to green(3).  (`set_light_status` only drives GPIOs.) -/
def handle_normal_mode (l : traffic_light) : traffic_light :=
  if l.status.green then
    { l with status := { l.status with green := false, yellow := true },
             timer := timer_arm.cycles 1 }
  else if l.status.yellow && !l.pedestrian_present then
    { l with status := { l.status with yellow := false, red := true },
             timer := timer_arm.cycles 2 }
  else if l.status.red then
    { l with status := { l.status with red := false, green := true },
             timer := timer_arm.cycles 3 }
  else if !l.status.red && !l.status.yellow && !l.status.green then
    { l with status := { l.status with green := true },
             timer := timer_arm.cycles 3 }
  else l

/-- `handle_flashing_red`: toggle red, force yellow and green off, re-arm one
cycle. -/
def handle_flashing_red (l : traffic_light) : traffic_light :=
  { l with status := { red := !l.status.red, yellow := false, green := false },
           timer := timer_arm.cycles 1 }

/-- `handle_flashing_yellow`: toggle yellow, force red and green off, re-arm
one cycle. -/
def handle_flashing_yellow (l : traffic_light) : traffic_light :=
  { l with status := { red := false, yellow := !l.status.yellow, green := false },
           timer := timer_arm.cycles 1 }

/-- `handle_pedestrian_mode`: if yellow is on, turn red on (yellow stays on),
green off, and arm 5 cycles; otherwise do nothing and let the current timer
run out. -/
def handle_pedestrian_mode (l : traffic_light) : traffic_light :=
  if l.status.yellow then
    { l with status := { l.status with red := true, green := false },
             timer := timer_arm.cycles 5 }
  else l

/-- `handle_lightbulb_check`: turn all lights on; if both buttons read
released (`gpio_get_value` of `BTN_0` and `BTN_1`), reset cycle rate to 1,
clear red and yellow, return to normal mode with a 3-cycle timer; otherwise
re-arm a 10 ms release poll. -/
def handle_lightbulb_check (btn0 btn1 : Bool) (l : traffic_light) : traffic_light :=
  let l1 := { l with status := { red := true, yellow := true, green := true } }
  if !btn0 && !btn1 then
    { l1 with cycle_rate := 1,
              status := { l1.status with red := false, yellow := false },
              mode := NORMAL_MODE,
              timer := timer_arm.cycles 3 }
  else
    { l1 with timer := timer_arm.poll_ms 10 }

/-- `handle_event`: look up the base table, apply the two pedestrian overlay
clauses, store the new mode, apply the anti-jitter early return, then dispatch
to the mode handler.  `btn0`/`btn1` are the live button levels read inside
`handle_lightbulb_check`. -/
def handle_event (btn0 btn1 : Bool) (l : traffic_light) (e : event) : traffic_light :=
  let next_mode := state_transition_table e l.mode
  let next_mode :=
    if l.pedestrian_present && l.status.yellow && !l.status.red then
      PEDESTRIAN_MODE
    else next_mode
  let l1 :=
    if l.pedestrian_present && l.status.red && l.status.yellow then
      { l with status := { l.status with red := false, yellow := false },
               pedestrian_present := false }
    else l
  let l2 := { l1 with mode := next_mode }
  if e = EVENT_BTN_1_PRESS ∧ (next_mode = FLASHING_RED ∨ next_mode = FLASHING_YELLOW) then
    l2
  else
    match next_mode with
    | NORMAL_MODE => handle_normal_mode l2
    | FLASHING_RED => handle_flashing_red l2
    | FLASHING_YELLOW => handle_flashing_yellow l2
    | PEDESTRIAN_MODE => handle_pedestrian_mode { l2 with pedestrian_present := true }
    | LIGHTBULB_CHECK => handle_lightbulb_check btn0 btn1 { l2 with pedestrian_present := false }

/-- The controller state built by `mytraffic_init`: normal mode, 1 Hz, red on
(to trigger an advance to green), no pedestrian, timer armed for 2 cycles. -/
def mytraffic_init_state : traffic_light :=
  { mode := NORMAL_MODE
    status := { red := true, yellow := false, green := false }
    cycle_rate := 1
    pedestrian_present := false
    timer := timer_arm.cycles 2 }

/-- Whitespace per C `isspace`, as skipped by `sscanf` before `%d`. -/
def c_isspace (c : Char) : Bool :=
  c = ' ' || c = '\t' || c = '\n' || c = '\x0b' || c = '\x0c' || c = '\r'

/-- The longest leading digit run, as consumed by `sscanf` `%d`; `none` when
no digit is present (conversion failure, `sscanf` returns 0). -/
def parse_digits (s : List Char) : Option Nat :=
  let ds := s.takeWhile Char.isDigit
  if ds = [] then none
  else some (ds.foldl (fun acc c => acc * 10 + (c.toNat - 48)) 0)

/-- `sscanf(kbuf, "%d", &new_rate)`: skip whitespace, optional sign, digits.
Returns the converted integer, or `none` when the conversion fails. -/
def sscanf_int (s : List Char) : Option Int :=
  let s1 := s.dropWhile c_isspace
  match s1 with
  | [] => none
  | c :: cs =>
    if c = '-' then (parse_digits cs).map (fun n => -(n : Int))
    else if c = '+' then (parse_digits cs).map (fun n => (n : Int))
    else (parse_digits s1).map (fun n => (n : Int))

/-- Return value of `mytraffic_write`: the byte count on success, or an error
(`-1` / `-EFAULT` in the source). -/
inductive write_result where
  | ok (count : Nat)
  | err
  deriving DecidableEq, Repr

/-- `mytraffic_write`: reject buffers longer than `sizeof(kbuf) - 1 = 255`;
parse with `sscanf "%d"`; accept only rates in `[1,9]`, storing the new rate
and returning the full count; any other input returns an error with the state
unchanged.  The buffer is the `count` bytes copied from user space. -/
def mytraffic_write (l : traffic_light) (buf : List Char) : traffic_light × write_result :=
  if buf.length > 255 then (l, write_result.err)
  else
    match sscanf_int buf with
    | some new_rate =>
      if new_rate < 1 ∨ new_rate > 9 then (l, write_result.err)
      else ({ l with cycle_rate := new_rate }, write_result.ok buf.length)
    | none => (l, write_result.err)

/-- `btn_0_irq_handler`: drop the edge when `current_time <
last_btn_0_irq_time + msecs_to_jiffies(50)` (leaving the stored timestamp
unchanged); otherwise store `current_time` and classify the edge as
`EVENT_BOTH_BTNS_PRESS` when `BTN_1` reads pressed, else `EVENT_BTN_0_PRESS`.
`w` is `msecs_to_jiffies(50)` in jiffies; the returned pair is the new stored
timestamp and the forwarded event, if any. -/
def btn_0_irq_step (w last_btn_0_irq_time current_time : Nat) (btn1_level : Bool) :
    Nat × Option event :=
  if current_time < last_btn_0_irq_time + w then
    (last_btn_0_irq_time, none)
  else
    (current_time,
     some (if btn1_level then EVENT_BOTH_BTNS_PRESS else EVENT_BTN_0_PRESS))

/-- `btn_1_irq_handler`: same debounce on the other button; classifies as
`EVENT_BOTH_BTNS_PRESS` when `BTN_0` reads pressed, else `EVENT_BTN_1_PRESS`. -/
def btn_1_irq_step (w last_btn_1_irq_time current_time : Nat) (btn0_level : Bool) :
    Nat × Option event :=
  if current_time < last_btn_1_irq_time + w then
    (last_btn_1_irq_time, none)
  else
    (current_time,
     some (if btn0_level then EVENT_BOTH_BTNS_PRESS else EVENT_BTN_1_PRESS))

/-- Controller states reachable from the `mytraffic_init` state by classified
events (with arbitrary live button levels) and writes to the control channel. -/
inductive Reachable : traffic_light → Prop
  | init : Reachable mytraffic_init_state
  | ev {l : traffic_light} (btn0 btn1 : Bool) (e : event) :
      Reachable l → Reachable (handle_event btn0 btn1 l e)
  | wr {l : traffic_light} (buf : List Char) :
      Reachable l → Reachable (mytraffic_write l buf).1

/-- The finite (mode, lights, pedestrian) part of the controller state; the
evolution of these fields does not depend on `cycle_rate` or on the timer
arming, so their reachable set can be computed exactly. -/
structure bstate where
  mode : opmode
  red : Bool
  yellow : Bool
  green : Bool
  ped : Bool
  deriving DecidableEq, Repr

/-- Projection of a controller state onto its finite part. -/
def bproj (l : traffic_light) : bstate :=
  { mode := l.mode, red := l.status.red, yellow := l.status.yellow,
    green := l.status.green, ped := l.pedestrian_present }

/-- A representative controller state over a finite part (rate and timer are
irrelevant to the evolution of the finite part). -/
def blift (b : bstate) : traffic_light :=
  { mode := b.mode, status := { red := b.red, yellow := b.yellow, green := b.green },
    cycle_rate := 1, pedestrian_present := b.ped, timer := timer_arm.cycles 0 }

/-- The event step on the finite part of the state. -/
def bstep (b : bstate) (btn0 btn1 : Bool) (e : event) : bstate :=
  bproj (handle_event btn0 btn1 (blift b) e)

/-- The exact set of finite state parts reachable from the initial state:
the least set containing `bproj mytraffic_init_state` and closed under
`bstep` (computed as a fixpoint; closure and initiality are proved below). -/
def RSet : List bstate :=
  [⟨NORMAL_MODE, false, false, true, true⟩,
   ⟨FLASHING_YELLOW, false, true, false, true⟩,
   ⟨FLASHING_RED, true, false, false, true⟩,
   ⟨FLASHING_RED, false, false, false, true⟩,
   ⟨FLASHING_YELLOW, false, false, false, false⟩,
   ⟨NORMAL_MODE, false, true, false, true⟩,
   ⟨PEDESTRIAN_MODE, true, true, false, true⟩,
   ⟨NORMAL_MODE, true, false, false, false⟩,
   ⟨NORMAL_MODE, true, true, false, false⟩,
   ⟨FLASHING_YELLOW, false, true, false, false⟩,
   ⟨PEDESTRIAN_MODE, false, false, false, true⟩,
   ⟨FLASHING_RED, true, false, false, false⟩,
   ⟨PEDESTRIAN_MODE, false, false, true, true⟩,
   ⟨NORMAL_MODE, false, true, false, false⟩,
   ⟨LIGHTBULB_CHECK, true, true, true, false⟩,
   ⟨FLASHING_RED, false, false, false, false⟩,
   ⟨PEDESTRIAN_MODE, true, false, false, true⟩,
   ⟨NORMAL_MODE, false, false, true, false⟩]

/-- The spec's base transition table (section 4.3), transcribed from the
spec's words for comparison with the code's `state_transition_table`; the
`BothButtonsPress` row is the spec's override rule 1 (always
`LightbulbCheck`). -/
def spec_base_table (e : event) (m : opmode) : opmode :=
  match e, m with
  | EVENT_BTN_0_PRESS, NORMAL_MODE => FLASHING_RED
  | EVENT_BTN_0_PRESS, FLASHING_RED => FLASHING_YELLOW
  | EVENT_BTN_0_PRESS, FLASHING_YELLOW => NORMAL_MODE
  | EVENT_BTN_0_PRESS, PEDESTRIAN_MODE => NORMAL_MODE
  | EVENT_BTN_0_PRESS, LIGHTBULB_CHECK => NORMAL_MODE
  | EVENT_BTN_1_PRESS, NORMAL_MODE => PEDESTRIAN_MODE
  | EVENT_BTN_1_PRESS, FLASHING_RED => FLASHING_RED
  | EVENT_BTN_1_PRESS, FLASHING_YELLOW => FLASHING_YELLOW
  | EVENT_BTN_1_PRESS, PEDESTRIAN_MODE => PEDESTRIAN_MODE
  | EVENT_BTN_1_PRESS, LIGHTBULB_CHECK => NORMAL_MODE
  | EVENT_BOTH_BTNS_PRESS, _ => LIGHTBULB_CHECK
  | EVENT_TIMER_EXPIRE, NORMAL_MODE => NORMAL_MODE
  | EVENT_TIMER_EXPIRE, FLASHING_RED => FLASHING_RED
  | EVENT_TIMER_EXPIRE, FLASHING_YELLOW => FLASHING_YELLOW
  | EVENT_TIMER_EXPIRE, PEDESTRIAN_MODE => NORMAL_MODE
  | EVENT_TIMER_EXPIRE, LIGHTBULB_CHECK => LIGHTBULB_CHECK

/-- The spec's base table amended to match the code: the single differing
cell is `(Button0Press, PedestrianCall)`, which the code maps to
`PEDESTRIAN_MODE` instead of the spec's `NORMAL_MODE`. -/
def spec_base_table_amended (e : event) (m : opmode) : opmode :=
  if e = EVENT_BTN_0_PRESS ∧ m = PEDESTRIAN_MODE then PEDESTRIAN_MODE
  else spec_base_table e m

/-- A 256-byte buffer whose leading characters parse as the in-range rate 5;
used to exhibit the length guard of `mytraffic_write`. -/
def long_rate_buf : List Char := '5' :: List.replicate 255 ' '

/-! ## Theorems -/

set_option maxHeartbeats 12000000 in
/-- The finite part of an event step depends only on the finite part of the
state: `cycle_rate` and the timer arming never influence mode, lights or the
pedestrian flag. -/
theorem bproj_handle_event (l : traffic_light) (b0 b1 : Bool) (e : event) :
    bproj (handle_event b0 b1 l e) = bstep (bproj l) b0 b1 e := by
  obtain ⟨m, ⟨r, y, g⟩, rate, ped, t⟩ := l
  cases m <;> cases e <;> cases r <;> cases y <;> cases g <;> cases ped <;>
    cases b0 <;> cases b1 <;> rfl

/-- A control-channel write never changes the finite part of the state. -/
theorem bproj_write (l : traffic_light) (buf : List Char) :
    bproj (mytraffic_write l buf).1 = bproj l := by
  unfold mytraffic_write
  split
  · rfl
  · split
    · split
      · rfl
      · rfl
    · rfl

/-- `RSet` is closed under the event step. -/
theorem RSet_closed :
    ∀ b ∈ RSet, ∀ (b0 b1 : Bool) (e : event), bstep b b0 b1 e ∈ RSet := by
  decide

/-- Every reachable controller state projects into `RSet`. -/
theorem reachable_mem_RSet {l : traffic_light} (h : Reachable l) : bproj l ∈ RSet := by
  induction h with
  | init => decide
  | ev b0 b1 e _ ih => rw [bproj_handle_event]; exact RSet_closed _ ih b0 b1 e
  | wr buf _ ih => rw [bproj_write]; exact ih

set_option maxHeartbeats 12000000 in
/-- An event step either leaves the cycle rate unchanged or resets it to 1
(the lightbulb-check release path). -/
theorem handle_event_rate (b0 b1 : Bool) (l : traffic_light) (e : event) :
    (handle_event b0 b1 l e).cycle_rate = l.cycle_rate ∨
      (handle_event b0 b1 l e).cycle_rate = 1 := by
  obtain ⟨m, ⟨r, y, g⟩, rate, ped, t⟩ := l
  cases m <;> cases e <;> cases r <;> cases y <;> cases g <;> cases ped <;>
    cases b0 <;> cases b1 <;>
    first
      | exact Or.inl rfl
      | exact Or.inr rfl

/-- A control-channel write either leaves the cycle rate unchanged or stores
a validated value in `[1, 9]`. -/
theorem mytraffic_write_rate (l : traffic_light) (buf : List Char) :
    (mytraffic_write l buf).1.cycle_rate = l.cycle_rate ∨
      (1 ≤ (mytraffic_write l buf).1.cycle_rate ∧
        (mytraffic_write l buf).1.cycle_rate ≤ 9) := by
  unfold mytraffic_write
  split
  · exact Or.inl rfl
  · split
    · rename_i r heq
      split
      · exact Or.inl rfl
      · rename_i hr
        refine Or.inr ⟨?_, ?_⟩
        · show (1 : Int) ≤ r
          omega
        · show r ≤ (9 : Int)
          omega
    · exact Or.inl rfl

/-- C8: every state reachable from the initial state by classified events and
configuration writes has `cycle_rate` in `[1, 9]`: it starts at 1, successful
writes store only validated values, and the lightbulb-check exit resets it
to 1. -/
theorem C8_rate_invariant {l : traffic_light} (h : Reachable l) :
    1 ≤ l.cycle_rate ∧ l.cycle_rate ≤ 9 := by
  induction h with
  | init => exact ⟨by decide, by decide⟩
  | ev b0 b1 e _ ih =>
    rcases handle_event_rate b0 b1 _ e with h1 | h1 <;> rw [h1]
    · exact ih
    · exact ⟨le_refl 1, by norm_num⟩
  | wr buf _ ih =>
    rcases mytraffic_write_rate _ buf with h1 | h1
    · rw [h1]; exact ih
    · exact h1

/-- C8 witness: the invariant evaluated at the initial state. -/
theorem C8_rate_invariant_witness :
    1 ≤ mytraffic_init_state.cycle_rate ∧ mytraffic_init_state.cycle_rate ≤ 9 :=
  C8_rate_invariant Reachable.init

/-- C5 counterexample: the claim says the initial pattern is green-on with a
3-cycle phase; `mytraffic_init` actually starts with red on, green off, and a
2-cycle timer. -/
theorem C5_init_counterexample :
    mytraffic_init_state.status.green = false ∧
      mytraffic_init_state.status.red = true ∧
      mytraffic_init_state.timer = timer_arm.cycles 2 := by
  decide

/-- C5 amended: at startup the controller is Normal, 1 Hz, pedestrian clear,
with the pattern red-on and a 2-cycle timer armed; the first timer expiry
then advances to green-on with a 3-cycle timer. -/
theorem C5_init_amended :
    mytraffic_init_state =
        { mode := NORMAL_MODE,
          status := { red := true, yellow := false, green := false },
          cycle_rate := 1, pedestrian_present := false,
          timer := timer_arm.cycles 2 } ∧
      ∀ b0 b1 : Bool,
        handle_event b0 b1 mytraffic_init_state EVENT_TIMER_EXPIRE =
          { mode := NORMAL_MODE,
            status := { red := false, yellow := false, green := true },
            cycle_rate := 1, pedestrian_present := false,
            timer := timer_arm.cycles 3 } :=
  ⟨rfl, fun _ _ => rfl⟩

/-- C3: from Normal in the green phase with no pedestrian, Button1Press
followed by two timer expiries reaches the extended stop phase with red and
yellow both on and a 5-cycle timer armed; the expiry of that phase clears red,
yellow and the pedestrian flag and returns to green with a 3-cycle timer. -/
theorem C3_pedestrian_overlay (rate : Int) (t : timer_arm)
    (a0 a1 c0 c1 d0 d1 f0 f1 : Bool) :
    handle_event d0 d1
        (handle_event c0 c1
          (handle_event a0 a1
            { mode := NORMAL_MODE,
              status := { red := false, yellow := false, green := true },
              cycle_rate := rate, pedestrian_present := false, timer := t }
            EVENT_BTN_1_PRESS)
          EVENT_TIMER_EXPIRE)
        EVENT_TIMER_EXPIRE =
      { mode := PEDESTRIAN_MODE,
        status := { red := true, yellow := true, green := false },
        cycle_rate := rate, pedestrian_present := true,
        timer := timer_arm.cycles 5 } ∧
    handle_event f0 f1
        { mode := PEDESTRIAN_MODE,
          status := { red := true, yellow := true, green := false },
          cycle_rate := rate, pedestrian_present := true,
          timer := timer_arm.cycles 5 }
        EVENT_TIMER_EXPIRE =
      { mode := NORMAL_MODE,
        status := { red := false, yellow := false, green := true },
        cycle_rate := rate, pedestrian_present := false,
        timer := timer_arm.cycles 3 } :=
  ⟨rfl, rfl⟩

/-- C2 divergence: in the reachable state Normal/yellow-on/pedestrian-present
(init, TimerExpire, Button1Press, TimerExpire), a BothButtonsPress with both
lines high is captured by the pedestrian overlay check in `handle_event`
(which does not test the event) and yields PEDESTRIAN_MODE with the 5-cycle
stop phase, not LIGHTBULB_CHECK with all three lights on. -/
theorem C2_both_buttons_divergence :
    handle_event false false
        (handle_event false false
          (handle_event true true mytraffic_init_state EVENT_TIMER_EXPIRE)
          EVENT_BTN_1_PRESS)
        EVENT_TIMER_EXPIRE =
      { mode := NORMAL_MODE,
        status := { red := false, yellow := true, green := false },
        cycle_rate := 1, pedestrian_present := true,
        timer := timer_arm.cycles 1 } ∧
    handle_event true true
        { mode := NORMAL_MODE,
          status := { red := false, yellow := true, green := false },
          cycle_rate := 1, pedestrian_present := true,
          timer := timer_arm.cycles 1 }
        EVENT_BOTH_BTNS_PRESS =
      { mode := PEDESTRIAN_MODE,
        status := { red := true, yellow := true, green := false },
        cycle_rate := 1, pedestrian_present := true,
        timer := timer_arm.cycles 5 } ∧
    (PEDESTRIAN_MODE : opmode) ≠ LIGHTBULB_CHECK :=
  ⟨rfl, rfl, by decide⟩

/-- C1 counterexample: the code's transition table maps (Button0Press,
PedestrianCall) to PEDESTRIAN_MODE, while the spec's base table says Normal;
`handle_event` follows the code's table even with the pedestrian flag clear. -/
theorem C1_base_table_counterexample :
    state_transition_table EVENT_BTN_0_PRESS PEDESTRIAN_MODE ≠
        spec_base_table EVENT_BTN_0_PRESS PEDESTRIAN_MODE ∧
      (handle_event true true
          { mode := PEDESTRIAN_MODE,
            status := { red := false, yellow := false, green := true },
            cycle_rate := 1, pedestrian_present := false,
            timer := timer_arm.cycles 3 }
          EVENT_BTN_0_PRESS).mode = PEDESTRIAN_MODE ∧
      (handle_event true true
          { mode := PEDESTRIAN_MODE,
            status := { red := false, yellow := false, green := true },
            cycle_rate := 1, pedestrian_present := false,
            timer := timer_arm.cycles 3 }
          EVENT_BTN_0_PRESS).mode ≠
        spec_base_table EVENT_BTN_0_PRESS PEDESTRIAN_MODE := by
  decide

set_option maxHeartbeats 12000000 in
/-- C1 amended: with the pedestrian flag clear and a single-button or timer
event, `handle_event` moves to exactly the mode given by the code's base
table, which agrees with the spec's table except that (Button0Press,
PedestrianCall) yields PedestrianCall; when the mode is LightbulbCheck and
the timer fires, at least one button is assumed still held (otherwise the
lightbulb-check release path exits to Normal). -/
theorem C1_base_table_amended (b0 b1 : Bool) (l : traffic_light) (e : event)
    (hped : l.pedestrian_present = false) (he : e ≠ EVENT_BOTH_BTNS_PRESS)
    (hlc : l.mode = LIGHTBULB_CHECK → e = EVENT_TIMER_EXPIRE → b0 = true ∨ b1 = true) :
    (handle_event b0 b1 l e).mode = spec_base_table_amended e l.mode := by
  obtain ⟨m, ⟨r, y, g⟩, rate, ped, t⟩ := l
  cases e <;>
    first
      | exact absurd rfl he
      | (cases ped <;>
          first
            | exact Bool.noConfusion hped
            | (cases m <;> cases r <;> cases y <;> cases g <;>
                first
                  | rfl
                  | (cases b0 <;> cases b1 <;>
                      first
                        | rfl
                        | exact absurd (hlc rfl rfl) (by decide))))

/-- C1 witness: the amended table evaluated at the initial state for
Button0Press. -/
theorem C1_base_table_witness :
    mytraffic_init_state.pedestrian_present = false ∧
      (handle_event true true mytraffic_init_state EVENT_BTN_0_PRESS).mode =
        spec_base_table_amended EVENT_BTN_0_PRESS mytraffic_init_state.mode :=
  ⟨rfl, C1_base_table_amended true true mytraffic_init_state EVENT_BTN_0_PRESS rfl
    (by decide) (by decide)⟩

set_option maxRecDepth 8000 in
/-- C7 counterexample: a 256-byte buffer whose content parses as the in-range
rate 5 is still rejected by the length guard of `mytraffic_write`, with the
state unchanged. -/
theorem C7_write_counterexample :
    sscanf_int long_rate_buf = some 5 ∧ (1 : Int) ≤ 5 ∧ (5 : Int) ≤ 9 ∧
      mytraffic_write mytraffic_init_state long_rate_buf =
        (mytraffic_init_state, write_result.err) := by
  refine ⟨by decide, by decide, by decide, ?_⟩
  unfold mytraffic_write
  rw [if_pos (by decide : long_rate_buf.length > 255)]

/-- C7 amended: for writes of at most 255 bytes, a buffer parsing as an
integer in `[1, 9]` stores that rate and returns the full count; any other
buffer (unparseable or out of range) returns an error with the state, in
particular the cycle rate, unchanged.  Longer writes are rejected by the
255-byte buffer guard regardless of content. -/
theorem C7_write_amended (l : traffic_light) (buf : List Char)
    (hlen : buf.length ≤ 255) :
    (∀ r : Int, sscanf_int buf = some r → 1 ≤ r → r ≤ 9 →
        mytraffic_write l buf =
          ({ l with cycle_rate := r }, write_result.ok buf.length)) ∧
      ((∀ r : Int, sscanf_int buf = some r → r < 1 ∨ 9 < r) →
        mytraffic_write l buf = (l, write_result.err)) := by
  have hgt : ¬ buf.length > 255 := by omega
  constructor
  · intro r hr h1 h9
    unfold mytraffic_write
    rw [if_neg hgt, hr]
    show (if r < 1 ∨ r > 9 then (l, write_result.err)
          else ({ l with cycle_rate := r }, write_result.ok buf.length)) = _
    rw [if_neg (show ¬(r < 1 ∨ r > 9) by omega)]
  · intro hout
    unfold mytraffic_write
    rw [if_neg hgt]
    cases hsc : sscanf_int buf with
    | none => rfl
    | some r =>
      show (if r < 1 ∨ r > 9 then (l, write_result.err)
            else ({ l with cycle_rate := r }, write_result.ok buf.length)) = _
      have hor := hout r hsc
      rw [if_pos (show r < 1 ∨ r > 9 by omega)]

/-- C7 witness: writing the buffer "3" to the initial state. -/
theorem C7_write_witness :
    mytraffic_write mytraffic_init_state ['3'] =
      ({ mytraffic_init_state with cycle_rate := 3 }, write_result.ok 1) :=
  (C7_write_amended mytraffic_init_state ['3'] (by decide)).1 3 (by decide)
    (by decide) (by decide)

/-- C9: an edge is forwarded by the IRQ handlers iff it arrives at least the
refractory window `w = msecs_to_jiffies(50)` after the last accepted edge on
the same button; an earlier edge is dropped silently, leaving the stored
timestamp unchanged, so two edges on one button less than the window apart
produce at most one classified event. -/
theorem C9_debounce (w last t1 t2 : Nat) (o1 o2 o3 o4 : Bool)
    (hmono : last ≤ t1) (h12 : t1 ≤ t2) :
    ((btn_0_irq_step w last t1 o1).2.isSome = true ↔ w ≤ t1 - last) ∧
      (t1 - last < w → btn_0_irq_step w last t1 o1 = (last, none)) ∧
      (t2 - t1 < w →
        ¬((btn_0_irq_step w last t1 o1).2.isSome = true ∧
          (btn_0_irq_step w (btn_0_irq_step w last t1 o1).1 t2 o2).2.isSome = true)) ∧
      ((btn_1_irq_step w last t1 o3).2.isSome = true ↔ w ≤ t1 - last) ∧
      (t1 - last < w → btn_1_irq_step w last t1 o3 = (last, none)) ∧
      (t2 - t1 < w →
        ¬((btn_1_irq_step w last t1 o3).2.isSome = true ∧
          (btn_1_irq_step w (btn_1_irq_step w last t1 o3).1 t2 o4).2.isSome = true)) := by
  by_cases h1 : t1 < last + w
  · have e0 : btn_0_irq_step w last t1 o1 = (last, none) := if_pos h1
    have e1 : btn_1_irq_step w last t1 o3 = (last, none) := if_pos h1
    refine ⟨?_, ?_, ?_, ?_, ?_, ?_⟩
    · rw [e0]; simp; omega
    · intro _; exact e0
    · intro _ hc; rw [e0] at hc; simp at hc
    · rw [e1]; simp; omega
    · intro _; exact e1
    · intro _ hc; rw [e1] at hc; simp at hc
  · have hk : w ≤ t1 - last := by omega
    have e0 : btn_0_irq_step w last t1 o1 =
        (t1, some (if o1 then EVENT_BOTH_BTNS_PRESS else EVENT_BTN_0_PRESS)) :=
      if_neg h1
    have e1 : btn_1_irq_step w last t1 o3 =
        (t1, some (if o3 then EVENT_BOTH_BTNS_PRESS else EVENT_BTN_1_PRESS)) :=
      if_neg h1
    refine ⟨?_, ?_, ?_, ?_, ?_, ?_⟩
    · rw [e0]; simp [hk]
    · intro hlt; exact absurd hlt (by omega)
    · intro hlt hc
      have e2 : btn_0_irq_step w t1 t2 o2 = (t1, none) := if_pos (by omega)
      rw [e0] at hc
      simp [e2] at hc
    · rw [e1]; simp [hk]
    · intro hlt; exact absurd hlt (by omega)
    · intro hlt hc
      have e2 : btn_1_irq_step w t1 t2 o4 = (t1, none) := if_pos (by omega)
      rw [e1] at hc
      simp [e2] at hc

/-- C9 witness: window 5, last accepted at 0, edges at 3 (dropped). -/
theorem C9_debounce_witness : btn_0_irq_step 5 0 3 false = (0, none) :=
  (C9_debounce 5 0 3 10 false false false false (by decide) (by decide)).2.1
    (by decide)

/-- C10: a successful cycle-rate write changes nothing but `cycle_rate`: the
mode, the light pattern, the pedestrian flag, and the pending timer arming
are all untouched (so the new rate takes effect only at the next expiry of
the already-armed phase). -/
theorem C10_write_frame (l : traffic_light) (buf : List Char)
    (h : (mytraffic_write l buf).2 ≠ write_result.err) :
    (mytraffic_write l buf).1.mode = l.mode ∧
      (mytraffic_write l buf).1.status = l.status ∧
      (mytraffic_write l buf).1.pedestrian_present = l.pedestrian_present ∧
      (mytraffic_write l buf).1.timer = l.timer := by
  by_cases hlen : buf.length > 255
  · exfalso
    apply h
    unfold mytraffic_write
    rw [if_pos hlen]
  · cases hsc : sscanf_int buf with
    | none =>
      exfalso
      apply h
      unfold mytraffic_write
      rw [if_neg hlen, hsc]
    | some r =>
      by_cases hr : r < 1 ∨ r > 9
      · exfalso
        apply h
        unfold mytraffic_write
        rw [if_neg hlen, hsc]
        show (if r < 1 ∨ r > 9 then (l, write_result.err)
              else ({ l with cycle_rate := r }, write_result.ok buf.length)).2 = _
        rw [if_pos hr]
      · have e1 : mytraffic_write l buf =
            ({ l with cycle_rate := r }, write_result.ok buf.length) := by
          unfold mytraffic_write
          rw [if_neg hlen, hsc]
          show (if r < 1 ∨ r > 9 then (l, write_result.err)
                else ({ l with cycle_rate := r }, write_result.ok buf.length)) = _
          rw [if_neg hr]
        rw [e1]
        exact ⟨rfl, rfl, rfl, rfl⟩

/-- C10 witness: writing the buffer "4" to the initial state. -/
theorem C10_write_frame_witness :
    (mytraffic_write mytraffic_init_state ['4']).1.mode =
        mytraffic_init_state.mode ∧
      (mytraffic_write mytraffic_init_state ['4']).1.status =
        mytraffic_init_state.status ∧
      (mytraffic_write mytraffic_init_state ['4']).1.pedestrian_present =
        mytraffic_init_state.pedestrian_present ∧
      (mytraffic_write mytraffic_init_state ['4']).1.timer =
        mytraffic_init_state.timer :=
  C10_write_frame mytraffic_init_state ['4'] (by decide)

/-- In every reachable flashing-red state, yellow and green are off; in every
reachable flashing-yellow state, red and green are off. -/
theorem RSet_flashing_facts :
    ∀ b ∈ RSet,
      (b.mode = FLASHING_RED → b.yellow = false ∧ b.green = false) ∧
        (b.mode = FLASHING_YELLOW → b.red = false ∧ b.green = false) := by
  decide

/-- Pattern facts for reachable flashing-red states. -/
theorem reachable_FR_pattern {l : traffic_light} (h : Reachable l)
    (hm : l.mode = FLASHING_RED) :
    l.status.yellow = false ∧ l.status.green = false :=
  (RSet_flashing_facts _ (reachable_mem_RSet h)).1 hm

/-- Pattern facts for reachable flashing-yellow states. -/
theorem reachable_FY_pattern {l : traffic_light} (h : Reachable l)
    (hm : l.mode = FLASHING_YELLOW) :
    l.status.red = false ∧ l.status.green = false :=
  (RSet_flashing_facts _ (reachable_mem_RSet h)).2 hm

/-- In a reachable flashing-red state, Button1Press is a complete no-op. -/
theorem anti_jitter_FR {l : traffic_light} (b0 b1 : Bool) (h : Reachable l)
    (hm : l.mode = FLASHING_RED) :
    handle_event b0 b1 l EVENT_BTN_1_PRESS = l := by
  obtain ⟨hy, hg⟩ := reachable_FR_pattern h hm
  obtain ⟨m, ⟨r, y, g⟩, rate, ped, t⟩ := l
  obtain rfl : m = FLASHING_RED := hm
  obtain rfl : y = false := hy
  obtain rfl : g = false := hg
  cases r <;> cases ped <;> rfl

/-- In a reachable flashing-yellow state whose Button1Press result stays in a
flashing mode, Button1Press is a complete no-op. -/
theorem anti_jitter_FY {l : traffic_light} (b0 b1 : Bool) (h : Reachable l)
    (hm : l.mode = FLASHING_YELLOW)
    (hres : (handle_event b0 b1 l EVENT_BTN_1_PRESS).mode = FLASHING_RED ∨
      (handle_event b0 b1 l EVENT_BTN_1_PRESS).mode = FLASHING_YELLOW) :
    handle_event b0 b1 l EVENT_BTN_1_PRESS = l := by
  obtain ⟨hr, hg⟩ := reachable_FY_pattern h hm
  obtain ⟨m, ⟨r, y, g⟩, rate, ped, t⟩ := l
  obtain rfl : m = FLASHING_YELLOW := hm
  obtain rfl : r = false := hr
  obtain rfl : g = false := hg
  cases y <;> cases ped <;>
    first
      | rfl
      | (rcases hres with hres | hres <;> exact opmode.noConfusion hres)

/-- C4: in any reachable flashing state, a Button1Press whose resulting mode
is again flashing leaves the whole state, in particular the light pattern and
the timer arming, unchanged; consequently two Button1Press events injected
between two timer expiries in flashing-red change the red light zero times
(the state after both presses is the original one). -/
theorem C4_anti_jitter (b0 b1 c0 c1 : Bool) {l : traffic_light}
    (h : Reachable l) :
    ((l.mode = FLASHING_RED ∨ l.mode = FLASHING_YELLOW) →
      ((handle_event b0 b1 l EVENT_BTN_1_PRESS).mode = FLASHING_RED ∨
        (handle_event b0 b1 l EVENT_BTN_1_PRESS).mode = FLASHING_YELLOW) →
      handle_event b0 b1 l EVENT_BTN_1_PRESS = l) ∧
      (l.mode = FLASHING_RED →
        handle_event c0 c1 (handle_event b0 b1 l EVENT_BTN_1_PRESS)
          EVENT_BTN_1_PRESS = l) := by
  constructor
  · rintro (hm | hm) hres
    · exact anti_jitter_FR b0 b1 h hm
    · exact anti_jitter_FY b0 b1 h hm hres
  · intro hm
    rw [anti_jitter_FR b0 b1 h hm]
    exact anti_jitter_FR c0 c1 h hm

/-- C4 witness: two Button1Press events in the flashing-red state reached
from the initial state by one Button0Press. -/
theorem C4_anti_jitter_witness :
    (handle_event true false mytraffic_init_state EVENT_BTN_0_PRESS).mode =
        FLASHING_RED ∧
      handle_event false false
          (handle_event false false
            (handle_event true false mytraffic_init_state EVENT_BTN_0_PRESS)
            EVENT_BTN_1_PRESS)
          EVENT_BTN_1_PRESS =
        handle_event true false mytraffic_init_state EVENT_BTN_0_PRESS :=
  ⟨rfl,
    (C4_anti_jitter false false false false
        (Reachable.ev true false EVENT_BTN_0_PRESS Reachable.init)).2 rfl⟩

/-- From a reachable state, the only way to enter flashing-red from another
mode is Button0Press in Normal, and to enter flashing-yellow is Button0Press
in flashing-red; in both cases the pedestrian overlay condition is off. -/
theorem RSet_entry_shape :
    ∀ b ∈ RSet, ∀ (b0 b1 : Bool) (e : event),
      (b.mode ≠ FLASHING_RED → (bstep b b0 b1 e).mode = FLASHING_RED →
        b.mode = NORMAL_MODE ∧ e = EVENT_BTN_0_PRESS ∧
          (b.ped && b.yellow) = false) ∧
        (b.mode ≠ FLASHING_YELLOW → (bstep b b0 b1 e).mode = FLASHING_YELLOW →
          b.mode = FLASHING_RED ∧ e = EVENT_BTN_0_PRESS ∧
            (b.ped && b.yellow) = false) := by
  decide

/-- Button0Press in Normal (pedestrian overlay off) enters flashing-red by
toggling red and clearing the other lights, arming one cycle. -/
theorem handle_event_enter_FR {l : traffic_light} (b0 b1 : Bool)
    (hm : l.mode = NORMAL_MODE)
    (hpy : (l.pedestrian_present && l.status.yellow) = false) :
    handle_event b0 b1 l EVENT_BTN_0_PRESS =
      { mode := FLASHING_RED,
        status := { red := !l.status.red, yellow := false, green := false },
        cycle_rate := l.cycle_rate,
        pedestrian_present := l.pedestrian_present,
        timer := timer_arm.cycles 1 } := by
  obtain ⟨m, ⟨r, y, g⟩, rate, ped, t⟩ := l
  obtain rfl : m = NORMAL_MODE := hm
  cases ped <;> cases y <;>
    first
      | (cases r <;> cases g <;> rfl)
      | exact Bool.noConfusion hpy

/-- Button0Press in flashing-red (pedestrian overlay off) enters
flashing-yellow by toggling yellow and clearing the other lights, arming one
cycle. -/
theorem handle_event_enter_FY {l : traffic_light} (b0 b1 : Bool)
    (hm : l.mode = FLASHING_RED)
    (hpy : (l.pedestrian_present && l.status.yellow) = false) :
    handle_event b0 b1 l EVENT_BTN_0_PRESS =
      { mode := FLASHING_YELLOW,
        status := { red := false, yellow := !l.status.yellow, green := false },
        cycle_rate := l.cycle_rate,
        pedestrian_present := l.pedestrian_present,
        timer := timer_arm.cycles 1 } := by
  obtain ⟨m, ⟨r, y, g⟩, rate, ped, t⟩ := l
  obtain rfl : m = FLASHING_RED := hm
  cases ped <;> cases y <;>
    first
      | (cases r <;> cases g <;> rfl)
      | exact Bool.noConfusion hpy

/-- A timer expiry in flashing-red (yellow off) toggles red, keeps the other
lights off, and re-arms one cycle. -/
theorem handle_event_FR_timer {l : traffic_light} (b0 b1 : Bool)
    (hm : l.mode = FLASHING_RED) (hy : l.status.yellow = false) :
    handle_event b0 b1 l EVENT_TIMER_EXPIRE =
      { l with
          status := { red := !l.status.red, yellow := false, green := false },
          timer := timer_arm.cycles 1 } := by
  obtain ⟨m, ⟨r, y, g⟩, rate, ped, t⟩ := l
  obtain rfl : m = FLASHING_RED := hm
  obtain rfl : y = false := hy
  cases ped <;> cases r <;> cases g <;> rfl

/-- A timer expiry in flashing-yellow with the pedestrian overlay off toggles
yellow, keeps the other lights off, and re-arms one cycle. -/
theorem handle_event_FY_timer {l : traffic_light} (b0 b1 : Bool)
    (hm : l.mode = FLASHING_YELLOW)
    (hpy : (l.pedestrian_present && l.status.yellow) = false) :
    handle_event b0 b1 l EVENT_TIMER_EXPIRE =
      { l with
          status := { red := false, yellow := !l.status.yellow, green := false },
          timer := timer_arm.cycles 1 } := by
  obtain ⟨m, ⟨r, y, g⟩, rate, ped, t⟩ := l
  obtain rfl : m = FLASHING_YELLOW := hm
  cases ped <;> cases y <;>
    first
      | (cases r <;> cases g <;> rfl)
      | exact Bool.noConfusion hpy

/-- C6 counterexample: the claim says entering flashing-red turns red on
regardless of the previous pattern; entering from the initial state (Normal,
red already on) via Button0Press leaves red off (the handler toggles). -/
theorem C6_flashing_counterexample :
    mytraffic_init_state.mode ≠ FLASHING_RED ∧
      (handle_event true false mytraffic_init_state EVENT_BTN_0_PRESS).mode =
        FLASHING_RED ∧
      (handle_event true false mytraffic_init_state
          EVENT_BTN_0_PRESS).status.red = false := by
  decide

/-- C6 amended: entering a flashing mode from a reachable state in another
mode turns the two other lights off and toggles the relevant light (so it
ends on exactly when it was off at entry), arming a 1-cycle timer.
Thereafter each timer expiry toggles only that light with a 1-cycle re-arm —
unconditionally in flashing-red, and in flashing-yellow provided the
pedestrian overlay condition (pedestrian flag and yellow on) is not met, in
which case the overlay forces PedestrianCall instead. -/
theorem C6_flashing_amended (b0 b1 : Bool) (e : event) {l : traffic_light}
    (h : Reachable l) :
    (l.mode ≠ FLASHING_RED → (handle_event b0 b1 l e).mode = FLASHING_RED →
      (handle_event b0 b1 l e).status =
          { red := !l.status.red, yellow := false, green := false } ∧
        (handle_event b0 b1 l e).timer = timer_arm.cycles 1) ∧
      (l.mode ≠ FLASHING_YELLOW →
        (handle_event b0 b1 l e).mode = FLASHING_YELLOW →
        (handle_event b0 b1 l e).status =
            { red := false, yellow := !l.status.yellow, green := false } ∧
          (handle_event b0 b1 l e).timer = timer_arm.cycles 1) ∧
      (l.mode = FLASHING_RED →
        handle_event b0 b1 l EVENT_TIMER_EXPIRE =
          { l with
              status := { red := !l.status.red, yellow := false, green := false },
              timer := timer_arm.cycles 1 }) ∧
      (l.mode = FLASHING_YELLOW →
        (l.pedestrian_present && l.status.yellow) = false →
        handle_event b0 b1 l EVENT_TIMER_EXPIRE =
          { l with
              status := { red := false, yellow := !l.status.yellow, green := false },
              timer := timer_arm.cycles 1 }) := by
  have hmem := reachable_mem_RSet h
  refine ⟨?_, ?_, ?_, ?_⟩
  · intro hne hres
    obtain ⟨hm, he, hpy⟩ := (RSet_entry_shape _ hmem b0 b1 e).1 hne
      (by rw [← bproj_handle_event]; exact hres)
    subst he
    rw [handle_event_enter_FR b0 b1 hm hpy]
    exact ⟨rfl, rfl⟩
  · intro hne hres
    obtain ⟨hm, he, hpy⟩ := (RSet_entry_shape _ hmem b0 b1 e).2 hne
      (by rw [← bproj_handle_event]; exact hres)
    subst he
    rw [handle_event_enter_FY b0 b1 hm hpy]
    exact ⟨rfl, rfl⟩
  · intro hm
    exact handle_event_FR_timer b0 b1 hm (reachable_FR_pattern h hm).1
  · intro hm hpy
    exact handle_event_FY_timer b0 b1 hm hpy

/-- C6 witness: a timer expiry in the flashing-red state reached from the
initial state by one Button0Press. -/
theorem C6_flashing_witness :
    handle_event true false
        (handle_event true false mytraffic_init_state EVENT_BTN_0_PRESS)
        EVENT_TIMER_EXPIRE =
      { handle_event true false mytraffic_init_state EVENT_BTN_0_PRESS with
          status :=
            { red := !(handle_event true false mytraffic_init_state
                EVENT_BTN_0_PRESS).status.red,
              yellow := false, green := false },
          timer := timer_arm.cycles 1 } :=
  (C6_flashing_amended true false EVENT_TIMER_EXPIRE
      (Reachable.ev true false EVENT_BTN_0_PRESS Reachable.init)).2.2.1 rfl

end Mytraffic
